import Mathlib

/-!
Shallow embedding of the UC20 boot state logic (`bootstate20.go` of the
snapd `boot` package): the Mode Environment record, the extracted-run-kernel
bootloader capability, and the kernel/base boot-state operations
(`revisions`, `setNext`, `commit`, `markSuccessful` selection, and the
combined mark-successful commit).

Side effects on persisted state (boot-variable writes, bootloader
try-reference changes, Mode Environment writes) are made observable as an
explicit trace of `Effect` events, and each external bootloader operation
can be made to fail through a `Faults` record, so that ordering, frame and
error-path properties of the Go code can be stated and proved.
-/

/-- The status constants of the `boot` package: `DefaultStatus = ""`. -/
def DefaultStatus : String := ""

/-- `TryStatus = "try"`: a candidate is staged, reboot into it pending. -/
def TryStatus : String := "try"

/-- `TryingStatus = "trying"`: the boot script booted the candidate. -/
def TryingStatus : String := "trying"

/-- `snap.PlaceInfo`: identity of a versioned boot artifact (name and
revision); its filename is derived.  Mirrors the part of the snap package
interface the boot code uses (`SnapName()`, `SnapRevision()`, `Filename()`). -/
structure PlaceInfo where
  SnapName : String
  SnapRevision : Int
deriving DecidableEq, Repr

/-- `snap.Revision.String()`: positive revisions print as numbers, local
revisions (negative) as `xN`. -/
def revisionString (n : Int) : String :=
  if n < 0 then "x" ++ toString (-n) else toString n

/-- `PlaceInfo.Filename()`: `<name>_<revision>.snap`. -/
def PlaceInfo.Filename (p : PlaceInfo) : String :=
  p.SnapName ++ "_" ++ revisionString p.SnapRevision ++ ".snap"

/-- The persisted Mode Environment record (`Modeenv`), with the fields the
boot-state code touches: `Base`, `TryBase`, `BaseStatus`, `CurrentKernels`. -/
structure Modeenv where
  Base : String
  TryBase : String
  BaseStatus : String
  CurrentKernels : List String
deriving DecidableEq, Repr

/-- The externally persisted bootloader state consumed through the
`ExtractedRunKernelImageBootloader` interface: the `kernel_status` boot
variable, the enabled (non-try) kernel, and the optional try-reference
(`none` models `ErrNoTryKernelRef`). -/
structure Bootloader where
  kernelStatusVar : String
  enabledKernel : PlaceInfo
  tryKernelRef : Option PlaceInfo
deriving DecidableEq, Repr

/-- The whole externally persisted state: bootloader plus the on-disk
Mode Environment record. -/
structure World where
  bl : Bootloader
  disk : Modeenv
deriving DecidableEq, Repr

/-- An observable side effect on persisted state: a boot-variable write
(`SetBootVars` with `kernel_status`), enabling a kernel, enabling a
try-kernel reference, disabling the try-kernel reference, or an atomic
Mode Environment write (`Modeenv.Write`). -/
inductive Effect where
  | setBootVars (value : String)
  | enableKernel (sn : PlaceInfo)
  | enableTryKernel (sn : PlaceInfo)
  | disableTryKernel
  | modeenvWrite (m : Modeenv)
deriving DecidableEq, Repr

/-- Fault injection for the external operations: each flag makes the
corresponding bootloader call (or the Mode Environment write) return an
error instead of succeeding. -/
structure Faults where
  setBootVarsFails : Bool
  enableKernelFails : Bool
  enableTryKernelFails : Bool
  disableTryKernelFails : Bool
  modeenvWriteFails : Bool
deriving DecidableEq, Repr

/-- No injected faults: every external operation succeeds. -/
def noFaults : Faults :=
  { setBootVarsFails := false
    enableKernelFails := false
    enableTryKernelFails := false
    disableTryKernelFails := false
    modeenvWriteFails := false }

/-- The uniform result of an effectful step: the effects actually applied,
the resulting external state, and `some errorMessage` if the step failed. -/
abbrev EffResult := List Effect × World × Option String

/-- Models the bootloader capability `SetBootVars` restricted to the
`kernel_status` key (the only key this code writes). -/
def setBootVarsOp (f : Faults) (w : World) (v : String) : EffResult :=
  if f.setBootVarsFails then ([], w, some "cannot set boot variables")
  else ([Effect.setBootVars v],
        { w with bl := { w.bl with kernelStatusVar := v } }, none)

/-- Models the bootloader capability `EnableKernel`: point the enabled
kernel at the given snap. -/
def enableKernelOp (f : Faults) (w : World) (sn : PlaceInfo) : EffResult :=
  if f.enableKernelFails then ([], w, some "cannot enable kernel")
  else ([Effect.enableKernel sn],
        { w with bl := { w.bl with enabledKernel := sn } }, none)

/-- Models the bootloader capability `EnableTryKernel`: create the
try-reference pointing at the given snap. -/
def enableTryKernelOp (f : Faults) (w : World) (sn : PlaceInfo) : EffResult :=
  if f.enableTryKernelFails then ([], w, some "cannot enable try kernel")
  else ([Effect.enableTryKernel sn],
        { w with bl := { w.bl with tryKernelRef := some sn } }, none)

/-- Models the bootloader capability `DisableTryKernel`: remove the
try-reference. -/
def disableTryKernelOp (f : Faults) (w : World) : EffResult :=
  if f.disableTryKernelFails then ([], w, some "cannot disable try kernel")
  else ([Effect.disableTryKernel],
        { w with bl := { w.bl with tryKernelRef := none } }, none)

/-- Models `Modeenv.Write`: atomically replace the persisted record with
the in-memory one. -/
def modeenvWriteOp (f : Faults) (w : World) (m : Modeenv) : EffResult :=
  if f.modeenvWriteFails then ([], w, some "cannot write modeenv")
  else ([Effect.modeenvWrite m], { w with disk := m }, none)

/-- `kernelStateMutatorExtractedRunKernelImage`: the kernel-status fields
filled in by `load()` plus the commit status staged by `setCommitStatus`. -/
structure KernelMutator where
  currentKernelStatus : String
  commitKernelStatus : String
  currentKernel : PlaceInfo
deriving DecidableEq, Repr

/-- `kernelStateMutatorExtractedRunKernelImage.load()`: read
`kernel_status` from the boot variables (the commit status defaults to it)
and the current kernel from the bootloader. -/
def KernelMutator.load (bl : Bootloader) : KernelMutator :=
  { currentKernelStatus := bl.kernelStatusVar
    commitKernelStatus := bl.kernelStatusVar
    currentKernel := bl.enabledKernel }

/-- `kernelStateMutatorExtractedRunKernelImage.markSuccessful(sn)`:
set `kernel_status` to default (only when it differs), then enable the
booted kernel (only when it is not the current one), then unconditionally
disable the try-kernel; abort on the first failure. -/
def KernelMutator.markSuccessful (k : KernelMutator) (f : Faults) (w : World)
    (sn : PlaceInfo) : EffResult :=
  let s1 : EffResult :=
    if k.commitKernelStatus ≠ DefaultStatus then setBootVarsOp f w DefaultStatus
    else ([], w, none)
  match s1 with
  | (t1, w1, some e) => (t1, w1, some e)
  | (t1, w1, none) =>
    let s2 : EffResult :=
      if k.currentKernel.Filename ≠ sn.Filename then enableKernelOp f w1 sn
      else ([], w1, none)
    match s2 with
    | (t2, w2, some e) => (t1 ++ t2, w2, some e)
    | (t2, w2, none) =>
      match disableTryKernelOp f w2 with
      | (t3, w3, e3) => (t1 ++ t2 ++ t3, w3, e3)

/-- `kernelStateMutatorExtractedRunKernelImage.setNextKernel(sn)`:
enable the try-kernel first (only when the next kernel differs from the
current one), then write `kernel_status` (only when the staged status
differs from the one read from the boot variables). -/
def KernelMutator.setNextKernel (k : KernelMutator) (f : Faults) (w : World)
    (sn : PlaceInfo) : EffResult :=
  let s1 : EffResult :=
    if sn.Filename ≠ k.currentKernel.Filename then enableTryKernelOp f w sn
    else ([], w, none)
  match s1 with
  | (t1, w1, some e) => (t1, w1, some e)
  | (t1, w1, none) =>
    if k.commitKernelStatus ≠ k.currentKernelStatus then
      match setBootVarsOp f w1 k.commitKernelStatus with
      | (t2, w2, e2) => (t1 ++ t2, w2, e2)
    else (t1, w1, none)

/-- `bootState20Kernel`: the kernel mutator together with the kernel snap
staged by `setNext` and the in-memory Mode Environment loaded for it.
(`nextKernelSnap` is only meaningful after `setNext`, which always sets
it; Go leaves it nil before that.) -/
structure BootState20Kernel where
  kmut : KernelMutator
  nextKernelSnap : PlaceInfo
  modeenv : Modeenv
deriving DecidableEq, Repr

/-- `bootState20Kernel.revisions()`: the current kernel, the optional
try-kernel, and `kernel_status`, all read from the bootloader
(`ErrNoTryKernelRef` is mapped to no try snap and is not an error). -/
def bootState20Kernel.revisions (bl : Bootloader) :
    PlaceInfo × Option PlaceInfo × String :=
  (bl.enabledKernel, bl.tryKernelRef, bl.kernelStatusVar)

/-- `genericSetNext(b, next)`: given the result of `b.revisions()`, stage
`DefaultStatus` when the next snap has the same name and revision as the
current one, `TryStatus` otherwise; propagate a `revisions` failure. -/
def genericSetNext (revs : Except String (PlaceInfo × Option PlaceInfo × String))
    (next : PlaceInfo) : Except String String :=
  match revs with
  | Except.error e => Except.error e
  | Except.ok (current, _, _) =>
    if current.SnapName = next.SnapName ∧ next.SnapRevision = current.SnapRevision then
      Except.ok DefaultStatus
    else
      Except.ok TryStatus

/-- `bootState20Kernel.setNext(next)`: load the Mode Environment and the
bootloader state, decide the staged status via `genericSetNext`, record
the next kernel snap and the commit status; reboot is required exactly
when the staged status is `TryStatus`.  No persisted state is touched:
the returned trace is the effects performed (always empty). -/
def bootState20Kernel.setNext (w : World) (next : PlaceInfo) :
    List Effect × Except String (Bool × BootState20Kernel) :=
  let kmut := KernelMutator.load w.bl
  match genericSetNext (Except.ok (bootState20Kernel.revisions w.bl)) next with
  | Except.error e => ([], Except.error e)
  | Except.ok nextStatus =>
    ([], Except.ok (nextStatus = TryStatus,
      { kmut := { kmut with commitKernelStatus := nextStatus }
        nextKernelSnap := next
        modeenv := w.disk }))

/-- `bootState20Kernel.commit()` (the `setNext` commit): when the next
kernel differs from the current one, first append it to
`CurrentKernels` and write the Mode Environment; then run
`setNextKernel` (enable try-kernel, then maybe write `kernel_status`). -/
def bootState20Kernel.commit (s : BootState20Kernel) (f : Faults) (w : World) :
    EffResult :=
  let currentKernel := s.kmut.currentKernel
  let s1 : EffResult × Modeenv :=
    if s.nextKernelSnap.Filename ≠ currentKernel.Filename then
      let m := { s.modeenv with
                 CurrentKernels := s.modeenv.CurrentKernels ++ [s.nextKernelSnap.Filename] }
      (modeenvWriteOp f w m, m)
    else (([], w, none), s.modeenv)
  match s1 with
  | ((t1, w1, some e), _) => (t1, w1, some e)
  | ((t1, w1, none), _) =>
    match s.kmut.setNextKernel f w1 s.nextKernelSnap with
    | (t2, w2, e2) => (t1 ++ t2, w2, e2)

/-- `bootState20Base`: the loaded Mode Environment, the staged commit
status, and the snaps recorded by `markSuccessful` / `setNext`. -/
structure BootState20Base where
  modeenv : Modeenv
  commitBaseStatus : String
  bootedBaseSnap : Option PlaceInfo
  tryBaseSnap : Option PlaceInfo
deriving DecidableEq, Repr

/-- `bootState20Base.revisions()`: fail when `Base` is empty or does not
parse; parse `TryBase` only when `BaseStatus` is `TryingStatus` and
`TryBase` is non-empty, failing when that parse fails.  The filename
parser (`snap.ParsePlaceInfoFromSnapFileName`, outside this package) is a
parameter. -/
def bootState20Base.revisions (parse : String → Except String PlaceInfo)
    (m : Modeenv) : Except String (PlaceInfo × Option PlaceInfo × String) :=
  if m.Base = "" then
    Except.error "cannot get snap revision: modeenv base boot variable is empty"
  else
    match parse m.Base with
    | Except.error e =>
      Except.error ("cannot get snap revision: modeenv base boot variable is invalid: " ++ e)
    | Except.ok bootSn =>
      if m.BaseStatus = TryingStatus ∧ m.TryBase ≠ "" then
        match parse m.TryBase with
        | Except.error e =>
          Except.error
            ("cannot get snap revision: modeenv try base boot variable is invalid: " ++ e)
        | Except.ok tryBootSn => Except.ok (bootSn, some tryBootSn, m.BaseStatus)
      else
        Except.ok (bootSn, none, m.BaseStatus)

/-- `bootState20Base.setNext(next)`: load the Mode Environment, decide the
staged status via `genericSetNext`; when it is `TryStatus` record the
try-base snap and require a reboot; stage the commit status.  No
persisted state is touched: the returned trace is always empty. -/
def bootState20Base.setNext (parse : String → Except String PlaceInfo)
    (disk : Modeenv) (next : PlaceInfo) :
    List Effect × Except String (Bool × BootState20Base) :=
  match genericSetNext (bootState20Base.revisions parse disk) next with
  | Except.error e => ([], Except.error e)
  | Except.ok nextStatus =>
    ([], Except.ok (nextStatus = TryStatus,
      { modeenv := disk
        commitBaseStatus := nextStatus
        bootedBaseSnap := none
        tryBaseSnap := if nextStatus = TryStatus then some next else none }))

/-- `selectSuccessfulBootSnap`: given `(current, trySnap, status)` from
`revisions`, pick the try snap when the status is `TryingStatus` and a
try snap exists, otherwise pick the current snap. -/
def selectSuccessfulBootSnap (sn : PlaceInfo) (trySnap : Option PlaceInfo)
    (status : String) : PlaceInfo :=
  if status = TryingStatus then
    match trySnap with
    | some t => t
    | none => sn
  else sn

/-- `bootState20MarkSuccessful`: the combined commit plan holding the base
side's Mode Environment, the kernel mutator, and the snaps recorded as
successfully booted (each `none` when that variant was not staged). -/
structure BootState20MarkSuccessful where
  modeenv : Modeenv
  kmut : KernelMutator
  bootedBaseSnap : Option PlaceInfo
  bootedKernelSnap : Option PlaceInfo
deriving DecidableEq, Repr

/-- The base-snap portion of `bootState20MarkSuccessful.commit()`: always
clear `TryBase`/`BaseStatus` when `BaseStatus` is not default; when a base
snap was marked successful, set `Base` to its filename and clear
`TryBase`, tracking whether anything changed. -/
def bsmarkBaseUpdate (m : Modeenv) (changed : Bool)
    (bootedBaseSnap : Option PlaceInfo) : Modeenv × Bool :=
  let s1 : Modeenv × Bool :=
    if m.BaseStatus ≠ DefaultStatus then
      ({ m with TryBase := "", BaseStatus := DefaultStatus }, true)
    else (m, changed)
  match s1 with
  | (m1, c1) =>
    match bootedBaseSnap with
    | some b =>
      let tryBase := b.Filename
      let s2 : Modeenv × Bool :=
        if m1.Base ≠ tryBase then ({ m1 with Base := tryBase }, true) else (m1, c1)
      match s2 with
      | (m2, c2) =>
        if m2.TryBase ≠ "" then ({ m2 with TryBase := "" }, true) else (m2, c2)
    | none => (m1, c1)

/-- `bootState20MarkSuccessful.commit()`: when a kernel snap was marked
successful, run the kernel mutator's `markSuccessful` (aborting on error)
and reset `CurrentKernels` to exactly that kernel's filename, marking the
Mode Environment changed; then apply the base-snap updates; finally issue
a single Mode Environment write only when something changed. -/
def bootState20MarkSuccessful.commit (s : BootState20MarkSuccessful)
    (f : Faults) (w : World) : EffResult :=
  let kstep : List Effect × World × Option String × Modeenv × Bool :=
    match s.bootedKernelSnap with
    | some sn =>
      match s.kmut.markSuccessful f w sn with
      | (t, w1, some e) => (t, w1, some e, s.modeenv, false)
      | (t, w1, none) =>
        (t, w1, none, { s.modeenv with CurrentKernels := [sn.Filename] }, true)
    | none => ([], w, none, s.modeenv, false)
  match kstep with
  | (t, w1, some e, _, _) => (t, w1, some e)
  | (t, w1, none, m1, changed1) =>
    match bsmarkBaseUpdate m1 changed1 s.bootedBaseSnap with
    | (m2, changed2) =>
      if changed2 then
        match modeenvWriteOp f w1 m2 with
        | (t2, w2, e2) => (t ++ t2, w2, e2)
      else (t, w1, none)

/-!  Helper lemmas about the base-snap portion of the combined commit. -/

/-- The base-snap updates of the combined commit never touch
`CurrentKernels`. -/
theorem bsmarkBaseUpdate_currentKernels (m : Modeenv) (c : Bool)
    (b : Option PlaceInfo) :
    (bsmarkBaseUpdate m c b).1.CurrentKernels = m.CurrentKernels := by
  unfold bsmarkBaseUpdate
  cases b <;> dsimp only <;> split_ifs <;> simp_all

/-- Once the kernel part marked the Mode Environment changed, the base
part keeps it changed. -/
theorem bsmarkBaseUpdate_changed (m : Modeenv) (b : Option PlaceInfo) :
    (bsmarkBaseUpdate m true b).2 = true := by
  unfold bsmarkBaseUpdate
  cases b <;> dsimp only <;> split_ifs <;> simp_all

/-- Claim C4: for every boot state read as (current, tryCandidate, status),
the markSuccessful selection picks the tryCandidate exactly when the status
equals Trying and a tryCandidate exists, and picks current in every other
case. -/
theorem selectSuccessfulBootSnap_spec (sn : PlaceInfo) (trySnap : Option PlaceInfo)
    (status : String) :
    (∀ t, status = TryingStatus → trySnap = some t →
      selectSuccessfulBootSnap sn trySnap status = t) ∧
    (status ≠ TryingStatus → selectSuccessfulBootSnap sn trySnap status = sn) ∧
    (trySnap = none → selectSuccessfulBootSnap sn trySnap status = sn) := by
  refine ⟨?_, ?_, ?_⟩ <;> intros <;> simp_all [selectSuccessfulBootSnap]

/-- Witness for C4 at a concrete boot state: in status `trying` with a try
snap present, the try snap is selected. -/
theorem selectSuccessfulBootSnap_spec_witness :
    selectSuccessfulBootSnap ⟨"pc-kernel", 1⟩ (some ⟨"pc-kernel", 2⟩) TryingStatus =
      ⟨"pc-kernel", 2⟩ :=
  (selectSuccessfulBootSnap_spec ⟨"pc-kernel", 1⟩ (some ⟨"pc-kernel", 2⟩)
    TryingStatus).1 ⟨"pc-kernel", 2⟩ rfl rfl

/-- Claim C6: calling setNext alone mutates no persisted state — the trace
of performed effects is empty for both the kernel and the base variant. -/
theorem setNext_no_persisted_writes (w : World) (next : PlaceInfo)
    (parse : String → Except String PlaceInfo) (disk : Modeenv) :
    (bootState20Kernel.setNext w next).1 = [] ∧
    (bootState20Base.setNext parse disk next).1 = [] := by
  constructor
  · unfold bootState20Kernel.setNext
    cases genericSetNext (Except.ok (bootState20Kernel.revisions w.bl)) next <;> rfl
  · unfold bootState20Base.setNext
    cases genericSetNext (bootState20Base.revisions parse disk) next <;> rfl

/-- Claim C3: setNext stages Default with no reboot exactly when the
candidate has the same name and revision as the current artifact, and
otherwise stages Try with the candidate as try-target and a required
reboot; the decision comes from the shared routine `genericSetNext`, used
by both the kernel and the base variant. -/
theorem setNext_decision (w : World) (next : PlaceInfo)
    (parse : String → Except String PlaceInfo) (m : Modeenv)
    (current : PlaceInfo) (tsn : Option PlaceInfo) (st : String) :
    (genericSetNext (Except.ok (current, tsn, st)) next =
      Except.ok
        (if current.SnapName = next.SnapName ∧ next.SnapRevision = current.SnapRevision
         then DefaultStatus else TryStatus)) ∧
    (bootState20Kernel.setNext w next = ([], Except.ok
      (if w.bl.enabledKernel.SnapName = next.SnapName ∧
          next.SnapRevision = w.bl.enabledKernel.SnapRevision
       then (false,
         { kmut := { KernelMutator.load w.bl with commitKernelStatus := DefaultStatus }
           nextKernelSnap := next, modeenv := w.disk })
       else (true,
         { kmut := { KernelMutator.load w.bl with commitKernelStatus := TryStatus }
           nextKernelSnap := next, modeenv := w.disk })))) ∧
    (bootState20Base.revisions parse m = Except.ok (current, tsn, st) →
      bootState20Base.setNext parse m next = ([], Except.ok
        (if current.SnapName = next.SnapName ∧ next.SnapRevision = current.SnapRevision
         then (false, { modeenv := m, commitBaseStatus := DefaultStatus
                        bootedBaseSnap := none, tryBaseSnap := none })
         else (true, { modeenv := m, commitBaseStatus := TryStatus
                       bootedBaseSnap := none, tryBaseSnap := some next })))) := by
  refine ⟨?_, ?_, ?_⟩
  · by_cases hsame : current.SnapName = next.SnapName ∧
        next.SnapRevision = current.SnapRevision <;>
      simp [genericSetNext, hsame]
  · unfold bootState20Kernel.setNext genericSetNext bootState20Kernel.revisions
    by_cases hsame : w.bl.enabledKernel.SnapName = next.SnapName ∧
        next.SnapRevision = w.bl.enabledKernel.SnapRevision <;>
      simp [hsame, DefaultStatus, TryStatus]
  · intro hrev
    unfold bootState20Base.setNext genericSetNext
    rw [hrev]
    by_cases hsame : current.SnapName = next.SnapName ∧
        next.SnapRevision = current.SnapRevision <;>
      simp [hsame, DefaultStatus, TryStatus]

/-- A concrete parser for witnesses: accepts exactly `core20_1.snap`. -/
def parseCore20 (s : String) : Except String PlaceInfo :=
  if s = "core20_1.snap" then Except.ok ⟨"core20", 1⟩
  else Except.error "not a snap file name"

/-- A concrete Mode Environment for witnesses of the decision claim. -/
def decisionModeenv : Modeenv :=
  { Base := "core20_1.snap", TryBase := "", BaseStatus := ""
    CurrentKernels := ["pc-kernel_1.snap"] }

/-- A concrete world for witnesses of the decision claim. -/
def decisionWorld : World :=
  { bl := { kernelStatusVar := "", enabledKernel := ⟨"pc-kernel", 1⟩
            tryKernelRef := none }
    disk := decisionModeenv }

/-- Witness for C3 at concrete inputs: staging a different base revision
via the base variant yields Try, the candidate as try-target, and a
required reboot. -/
theorem setNext_decision_witness :
    bootState20Base.revisions parseCore20 decisionModeenv =
      Except.ok (⟨"core20", 1⟩, none, "") ∧
    bootState20Base.setNext parseCore20 decisionModeenv ⟨"core20", 2⟩ =
      ([], Except.ok (true,
        { modeenv := decisionModeenv, commitBaseStatus := TryStatus
          bootedBaseSnap := none, tryBaseSnap := some ⟨"core20", 2⟩ })) := by
  have hrev : bootState20Base.revisions parseCore20 decisionModeenv =
      Except.ok (⟨"core20", 1⟩, none, "") := by rfl
  refine ⟨hrev, ?_⟩
  have h := (setNext_decision decisionWorld ⟨"core20", 2⟩ parseCore20 decisionModeenv
    ⟨"core20", 1⟩ none "").2.2 hrev
  rw [if_neg (by decide)] at h
  exact h

/-- Claim C7: whenever a persisted filename read by the base variant (the
base entry, or the try-base entry in the state where it is read) cannot be
decoded into an artifact placement, `revisions` fails with a surfaced
parse error rather than silently defaulting. -/
theorem base_revisions_parse_error (parse : String → Except String PlaceInfo)
    (m : Modeenv) (e : String) (hbase : m.Base ≠ "") :
    (parse m.Base = Except.error e →
      bootState20Base.revisions parse m =
        Except.error
          ("cannot get snap revision: modeenv base boot variable is invalid: " ++ e)) ∧
    (∀ b, parse m.Base = Except.ok b → m.BaseStatus = TryingStatus → m.TryBase ≠ "" →
      parse m.TryBase = Except.error e →
      bootState20Base.revisions parse m =
        Except.error
          ("cannot get snap revision: modeenv try base boot variable is invalid: " ++ e)) := by
  constructor
  · intro hp
    simp [bootState20Base.revisions, hbase, hp]
  · intro b hp hst htb hpt
    simp [bootState20Base.revisions, hbase, hp, hst, htb, hpt]

/-- A malformed Mode Environment for the parse-error witness: its try-base
entry is not a valid snap file name. -/
def malformedModeenv : Modeenv :=
  { Base := "core20_1.snap", TryBase := "garbage", BaseStatus := "trying"
    CurrentKernels := ["pc-kernel_1.snap"] }

/-- Witness for C7 at a concrete input: a malformed try-base entry in
status `trying` makes `revisions` fail with the surfaced parse error. -/
theorem base_revisions_parse_error_witness :
    malformedModeenv.Base ≠ "" ∧
    parseCore20 malformedModeenv.TryBase = Except.error "not a snap file name" ∧
    bootState20Base.revisions parseCore20 malformedModeenv =
      Except.error
        ("cannot get snap revision: modeenv try base boot variable is invalid: " ++
          "not a snap file name") := by
  refine ⟨by decide, by rfl, ?_⟩
  exact (base_revisions_parse_error parseCore20 malformedModeenv
      "not a snap file name" (by decide)).2 ⟨"core20", 1⟩ (by rfl) (by rfl)
      (by decide) (by rfl)

/-- Claim C10: the base variant's `revisions` reports a try candidate only
when the persisted status is exactly Trying with a non-empty try-base;
when the status is Try the try candidate is none and the try-base entry is
not parsed at all (the result only depends on the parse of the base
entry), so a malformed try-base cannot fail `revisions` in that state. -/
theorem base_revisions_try_only_when_trying
    (parse : String → Except String PlaceInfo) (m : Modeenv) :
    (∀ cur t st, bootState20Base.revisions parse m = Except.ok (cur, some t, st) →
      m.BaseStatus = TryingStatus ∧ m.TryBase ≠ "") ∧
    (m.BaseStatus = TryStatus →
      (∀ cur t st, bootState20Base.revisions parse m = Except.ok (cur, t, st) →
        t = none) ∧
      ∀ q : String → Except String PlaceInfo, parse m.Base = q m.Base →
        bootState20Base.revisions parse m = bootState20Base.revisions q m) := by
  constructor
  · intro cur t st h
    by_cases hcond : m.BaseStatus = TryingStatus ∧ m.TryBase ≠ ""
    · exact hcond
    · exfalso
      unfold bootState20Base.revisions at h
      by_cases hbase : m.Base = "" <;> simp [hbase] at h
      cases hp : parse m.Base <;> rw [hp] at h <;> simp [hcond] at h
  · intro hst
    have hcond : ¬(m.BaseStatus = TryingStatus ∧ m.TryBase ≠ "") := by
      rintro ⟨h1, _⟩
      rw [hst] at h1
      exact absurd h1 (by decide)
    constructor
    · intro cur t st h
      unfold bootState20Base.revisions at h
      by_cases hbase : m.Base = "" <;> simp [hbase] at h
      cases hp : parse m.Base <;> rw [hp] at h <;> simp [hcond] at h
      exact h.2.1.symm
    · intro q hq
      unfold bootState20Base.revisions
      rw [← hq]
      by_cases hbase : m.Base = "" <;> simp [hbase]
      cases hp : parse m.Base <;> simp [hcond]

/-- A Mode Environment in status `try` with a malformed try-base, for the
C10 witness. -/
def tryStatusModeenv : Modeenv :=
  { Base := "core20_1.snap", TryBase := "garbage", BaseStatus := "try"
    CurrentKernels := ["pc-kernel_1.snap"] }

/-- Witness for C10 at a concrete input: in status `try`, `revisions`
succeeds with no try candidate even though the try-base entry is
malformed. -/
theorem base_revisions_try_only_when_trying_witness :
    bootState20Base.revisions parseCore20 tryStatusModeenv =
      Except.ok (⟨"core20", 1⟩, none, "try") ∧
    (none : Option PlaceInfo) = none := by
  have hrev : bootState20Base.revisions parseCore20 tryStatusModeenv =
      Except.ok (⟨"core20", 1⟩, none, "try") := by rfl
  refine ⟨hrev, ?_⟩
  exact ((base_revisions_try_only_when_trying parseCore20 tryStatusModeenv).2
    (by rfl)).1 ⟨"core20", 1⟩ none "try" hrev

/-- Claim C2: in the kernel setNext commit with staged status Try and a
candidate different from the current kernel, the effects happen in this
strict order: Mode Environment write with the candidate appended to
CurrentKernels, then enabling the try-kernel reference, then — only if the
staged value differs from the current boot-variable value — the
kernel_status write. -/
theorem kernel_setnext_commit_order (s : BootState20Kernel) (w : World)
    (hstatus : s.kmut.commitKernelStatus = TryStatus)
    (hdiff : s.nextKernelSnap.Filename ≠ s.kmut.currentKernel.Filename) :
    bootState20Kernel.commit s noFaults w =
      (Effect.modeenvWrite
          { s.modeenv with
            CurrentKernels := s.modeenv.CurrentKernels ++ [s.nextKernelSnap.Filename] } ::
        Effect.enableTryKernel s.nextKernelSnap ::
        (if TryStatus ≠ s.kmut.currentKernelStatus
         then [Effect.setBootVars TryStatus] else []),
       { bl := { kernelStatusVar := if TryStatus ≠ s.kmut.currentKernelStatus
                   then TryStatus else w.bl.kernelStatusVar
                 enabledKernel := w.bl.enabledKernel
                 tryKernelRef := some s.nextKernelSnap }
         disk := { s.modeenv with
                   CurrentKernels := s.modeenv.CurrentKernels ++ [s.nextKernelSnap.Filename] } },
       none) := by
  unfold bootState20Kernel.commit KernelMutator.setNextKernel modeenvWriteOp
    enableTryKernelOp setBootVarsOp
  by_cases hcs : TryStatus = s.kmut.currentKernelStatus <;>
    simp [noFaults, hdiff, hstatus, hcs]

/-- The staged kernel boot state for the C2 witness: status Try staged,
candidate revision 2 over current revision 1. -/
def c2State : BootState20Kernel :=
  { kmut := { currentKernelStatus := "", commitKernelStatus := "try"
              currentKernel := ⟨"pc-kernel", 1⟩ }
    nextKernelSnap := ⟨"pc-kernel", 2⟩
    modeenv := { Base := "core20_1.snap", TryBase := "", BaseStatus := ""
                 CurrentKernels := ["pc-kernel_1.snap"] } }

/-- The world for the C2 witness. -/
def c2World : World :=
  { bl := { kernelStatusVar := "", enabledKernel := ⟨"pc-kernel", 1⟩
            tryKernelRef := none }
    disk := c2State.modeenv }

/-- Witness for C2 at concrete inputs: the commit performs exactly the
Mode Environment write, then the try-kernel enable, then the
kernel_status write. -/
theorem kernel_setnext_commit_order_witness :
    c2State.kmut.commitKernelStatus = TryStatus ∧
    c2State.nextKernelSnap.Filename ≠ c2State.kmut.currentKernel.Filename ∧
    bootState20Kernel.commit c2State noFaults c2World =
      ([Effect.modeenvWrite
          { Base := "core20_1.snap", TryBase := "", BaseStatus := ""
            CurrentKernels := ["pc-kernel_1.snap", "pc-kernel_2.snap"] },
        Effect.enableTryKernel ⟨"pc-kernel", 2⟩,
        Effect.setBootVars TryStatus],
       { bl := { kernelStatusVar := TryStatus, enabledKernel := ⟨"pc-kernel", 1⟩
                 tryKernelRef := some ⟨"pc-kernel", 2⟩ }
         disk := { Base := "core20_1.snap", TryBase := "", BaseStatus := ""
                   CurrentKernels := ["pc-kernel_1.snap", "pc-kernel_2.snap"] } },
       none) := by
  have h := kernel_setnext_commit_order c2State c2World rfl (by decide)
  rw [if_pos (by decide), if_pos (by decide)] at h
  refine ⟨rfl, by decide, ?_⟩
  rw [h]
  rfl

/-- Claim C1: in the combined markSuccessful commit with a kernel decision
staged (and a pending status and a newly booted kernel, so every step
fires), the effects happen in this strict order: kernel_status set to
Default, then the successful kernel enabled, then the try-reference
removed, and only then the single Mode Environment write, whose record
has CurrentKernels shrunk to exactly the successful kernel's filename. -/
theorem marksuccessful_commit_order (s : BootState20MarkSuccessful) (w : World)
    (sn : PlaceInfo) (hk : s.bootedKernelSnap = some sn)
    (hst : s.kmut.commitKernelStatus ≠ DefaultStatus)
    (hdiff : s.kmut.currentKernel.Filename ≠ sn.Filename) :
    ∃ (mfin : Modeenv) (w1 : World),
      bootState20MarkSuccessful.commit s noFaults w =
        ([Effect.setBootVars DefaultStatus, Effect.enableKernel sn,
          Effect.disableTryKernel, Effect.modeenvWrite mfin], w1, none) ∧
      mfin.CurrentKernels = [sn.Filename] ∧ w1.disk = mfin := by
  unfold bootState20MarkSuccessful.commit
  rw [hk]
  unfold KernelMutator.markSuccessful setBootVarsOp enableKernelOp
    disableTryKernelOp modeenvWriteOp
  rcases hbu : bsmarkBaseUpdate { s.modeenv with CurrentKernels := [sn.Filename] }
      true s.bootedBaseSnap with ⟨m2, c2⟩
  have hc2 : c2 = true := by
    have h := bsmarkBaseUpdate_changed
      { s.modeenv with CurrentKernels := [sn.Filename] } s.bootedBaseSnap
    rw [hbu] at h
    exact h
  subst hc2
  refine ⟨m2,
    { bl := { kernelStatusVar := DefaultStatus, enabledKernel := sn
              tryKernelRef := none }
      disk := m2 }, ?_, ?_, rfl⟩
  · simp [noFaults, hst, hdiff, hbu]
  · have h := bsmarkBaseUpdate_currentKernels
      { s.modeenv with CurrentKernels := [sn.Filename] } true s.bootedBaseSnap
    rw [hbu] at h
    simpa using h

/-- The combined plan for the C1 witness: the try kernel (revision 2) was
booted, status `trying` is pending, current kernel is revision 1. -/
def c1Plan : BootState20MarkSuccessful :=
  { modeenv := { Base := "core20_1.snap", TryBase := "", BaseStatus := ""
                 CurrentKernels := ["pc-kernel_1.snap", "pc-kernel_2.snap"] }
    kmut := { currentKernelStatus := "trying", commitKernelStatus := "trying"
              currentKernel := ⟨"pc-kernel", 1⟩ }
    bootedBaseSnap := none
    bootedKernelSnap := some ⟨"pc-kernel", 2⟩ }

/-- The world for the C1 witness. -/
def c1World : World :=
  { bl := { kernelStatusVar := "trying", enabledKernel := ⟨"pc-kernel", 1⟩
            tryKernelRef := some ⟨"pc-kernel", 2⟩ }
    disk := c1Plan.modeenv }

/-- Witness for C1 at concrete inputs: the commit's effects are exactly
the boot-variable clear, the kernel enable, the try-reference removal and
one final Mode Environment write shrinking CurrentKernels. -/
theorem marksuccessful_commit_order_witness :
    c1Plan.bootedKernelSnap = some ⟨"pc-kernel", 2⟩ ∧
    c1Plan.kmut.commitKernelStatus ≠ DefaultStatus ∧
    c1Plan.kmut.currentKernel.Filename ≠ (⟨"pc-kernel", 2⟩ : PlaceInfo).Filename ∧
    (∃ (mfin : Modeenv) (w1 : World),
      bootState20MarkSuccessful.commit c1Plan noFaults c1World =
        ([Effect.setBootVars DefaultStatus, Effect.enableKernel ⟨"pc-kernel", 2⟩,
          Effect.disableTryKernel, Effect.modeenvWrite mfin], w1, none) ∧
      mfin.CurrentKernels = [(⟨"pc-kernel", 2⟩ : PlaceInfo).Filename] ∧
      w1.disk = mfin) :=
  ⟨rfl, by decide, by decide,
    marksuccessful_commit_order c1Plan c1World ⟨"pc-kernel", 2⟩ rfl
      (by decide) (by decide)⟩

/-- The kernel mutator's markSuccessful issues no Mode Environment write
and leaves the persisted record untouched, whether it succeeds or fails. -/
theorem kernelMarkSuccessful_no_modeenv (k : KernelMutator) (f : Faults)
    (w : World) (sn : PlaceInfo) :
    (∀ m, Effect.modeenvWrite m ∉ (k.markSuccessful f w sn).1) ∧
    (k.markSuccessful f w sn).2.1.disk = w.disk := by
  unfold KernelMutator.markSuccessful setBootVarsOp enableKernelOp
    disableTryKernelOp
  by_cases h1 : k.commitKernelStatus ≠ DefaultStatus <;>
    by_cases h2 : k.currentKernel.Filename ≠ sn.Filename <;>
      cases hf1 : f.setBootVarsFails <;> cases hf2 : f.enableKernelFails <;>
        cases hf3 : f.disableTryKernelFails <;> simp [h1, h2, hf1, hf2, hf3]

/-- Claim C8: if any bootloader step of the combined markSuccessful commit
fails, the commit returns that error immediately with exactly the effects
the kernel mutator performed, issues no Mode Environment write, and leaves
the persisted record exactly as before. -/
theorem marksuccessful_commit_abort (s : BootState20MarkSuccessful) (f : Faults)
    (w : World) (sn : PlaceInfo) (e : String)
    (hk : s.bootedKernelSnap = some sn)
    (hfail : (s.kmut.markSuccessful f w sn).2.2 = some e) :
    bootState20MarkSuccessful.commit s f w =
      ((s.kmut.markSuccessful f w sn).1,
       (s.kmut.markSuccessful f w sn).2.1, some e) ∧
    (∀ m, Effect.modeenvWrite m ∉ (bootState20MarkSuccessful.commit s f w).1) ∧
    (bootState20MarkSuccessful.commit s f w).2.1.disk = w.disk := by
  have hfr := kernelMarkSuccessful_no_modeenv s.kmut f w sn
  have hcom : bootState20MarkSuccessful.commit s f w =
      ((s.kmut.markSuccessful f w sn).1,
       (s.kmut.markSuccessful f w sn).2.1, some e) := by
    unfold bootState20MarkSuccessful.commit
    rcases hms : s.kmut.markSuccessful f w sn with ⟨t, w1, err⟩
    rw [hms] at hfail
    simp only at hfail
    subst hfail
    rw [hk]
    dsimp only
    rw [hms]
  refine ⟨hcom, ?_, ?_⟩
  · rw [hcom]
    exact hfr.1
  · rw [hcom]
    exact hfr.2

/-- The plan for the C8 witness: nothing pending, so only the
unconditional try-reference removal fires — and it is made to fail. -/
def c8Plan : BootState20MarkSuccessful :=
  { modeenv := { Base := "core20_1.snap", TryBase := "", BaseStatus := ""
                 CurrentKernels := ["pc-kernel_1.snap"] }
    kmut := { currentKernelStatus := "", commitKernelStatus := ""
              currentKernel := ⟨"pc-kernel", 1⟩ }
    bootedBaseSnap := none
    bootedKernelSnap := some ⟨"pc-kernel", 1⟩ }

/-- Faults for the C8 witness: disabling the try-kernel fails. -/
def c8Faults : Faults :=
  { setBootVarsFails := false, enableKernelFails := false
    enableTryKernelFails := false, disableTryKernelFails := true
    modeenvWriteFails := false }

/-- The world for the C8 witness. -/
def c8World : World :=
  { bl := { kernelStatusVar := "", enabledKernel := ⟨"pc-kernel", 1⟩
            tryKernelRef := none }
    disk := c8Plan.modeenv }

/-- Witness for C8 at concrete inputs: with the try-reference removal
failing, the commit surfaces that error, performs no Mode Environment
write and leaves the persisted record untouched. -/
theorem marksuccessful_commit_abort_witness :
    (c8Plan.kmut.markSuccessful c8Faults c8World ⟨"pc-kernel", 1⟩).2.2 =
      some "cannot disable try kernel" ∧
    bootState20MarkSuccessful.commit c8Plan c8Faults c8World =
      ((c8Plan.kmut.markSuccessful c8Faults c8World ⟨"pc-kernel", 1⟩).1,
       (c8Plan.kmut.markSuccessful c8Faults c8World ⟨"pc-kernel", 1⟩).2.1,
       some "cannot disable try kernel") ∧
    (∀ m, Effect.modeenvWrite m ∉
      (bootState20MarkSuccessful.commit c8Plan c8Faults c8World).1) ∧
    (bootState20MarkSuccessful.commit c8Plan c8Faults c8World).2.1.disk =
      c8World.disk :=
  ⟨rfl, marksuccessful_commit_abort c8Plan c8Faults c8World ⟨"pc-kernel", 1⟩
    "cannot disable try kernel" rfl rfl⟩

/-- With no faults, the combined markSuccessful commit with a kernel snap
staged persists a Mode Environment whose CurrentKernels is exactly that
kernel's filename. -/
theorem bsmark_commit_noFaults_kernels (sm : BootState20MarkSuccessful)
    (wm : World) (sn : PlaceInfo) (hk : sm.bootedKernelSnap = some sn) :
    (bootState20MarkSuccessful.commit sm noFaults wm).2.1.disk.CurrentKernels =
      [sn.Filename] := by
  unfold bootState20MarkSuccessful.commit KernelMutator.markSuccessful
    setBootVarsOp enableKernelOp disableTryKernelOp modeenvWriteOp
  rw [hk]
  rcases hbu : bsmarkBaseUpdate { sm.modeenv with CurrentKernels := [sn.Filename] }
      true sm.bootedBaseSnap with ⟨m2, c2⟩
  have hc2 : c2 = true := by
    have h := bsmarkBaseUpdate_changed
      { sm.modeenv with CurrentKernels := [sn.Filename] } sm.bootedBaseSnap
    rw [hbu] at h
    exact h
  subst hc2
  have hck := bsmarkBaseUpdate_currentKernels
    { sm.modeenv with CurrentKernels := [sn.Filename] } true sm.bootedBaseSnap
  rw [hbu] at hck
  have hck2 : m2.CurrentKernels = [sn.Filename] := by simpa using hck
  by_cases h1 : sm.kmut.commitKernelStatus ≠ DefaultStatus <;>
    by_cases h2 : sm.kmut.currentKernel.Filename ≠ sn.Filename <;>
      simp [noFaults, h1, h2, hbu, hck2]

/-- Claim C9: CurrentKernels is never made empty — a successful kernel
setNext commit with a fresh candidate persists the previous list plus the
candidate (so it keeps the previous kernel and stays non-empty), and a
successful markSuccessful commit persists exactly the successful kernel's
filename (non-empty). -/
theorem currentKernels_never_empty (s : BootState20Kernel) (w : World)
    (sm : BootState20MarkSuccessful) (wm : World) (sn : PlaceInfo)
    (hdiff : s.nextKernelSnap.Filename ≠ s.kmut.currentKernel.Filename)
    (hmem : s.kmut.currentKernel.Filename ∈ s.modeenv.CurrentKernels)
    (hk : sm.bootedKernelSnap = some sn) :
    ((bootState20Kernel.commit s noFaults w).2.1.disk.CurrentKernels =
        s.modeenv.CurrentKernels ++ [s.nextKernelSnap.Filename] ∧
      s.kmut.currentKernel.Filename ∈
        (bootState20Kernel.commit s noFaults w).2.1.disk.CurrentKernels ∧
      s.nextKernelSnap.Filename ∈
        (bootState20Kernel.commit s noFaults w).2.1.disk.CurrentKernels ∧
      (bootState20Kernel.commit s noFaults w).2.1.disk.CurrentKernels ≠ []) ∧
    ((bootState20MarkSuccessful.commit sm noFaults wm).2.1.disk.CurrentKernels =
        [sn.Filename] ∧
      (bootState20MarkSuccessful.commit sm noFaults wm).2.1.disk.CurrentKernels ≠
        []) := by
  have hdisk : (bootState20Kernel.commit s noFaults w).2.1.disk.CurrentKernels =
      s.modeenv.CurrentKernels ++ [s.nextKernelSnap.Filename] := by
    unfold bootState20Kernel.commit KernelMutator.setNextKernel modeenvWriteOp
      enableTryKernelOp setBootVarsOp
    by_cases hcs : s.kmut.commitKernelStatus = s.kmut.currentKernelStatus <;>
      simp [noFaults, hdiff, hcs]
  have hmk := bsmark_commit_noFaults_kernels sm wm sn hk
  refine ⟨⟨hdisk, ?_, ?_, ?_⟩, hmk, ?_⟩
  · rw [hdisk]
    exact List.mem_append_left _ hmem
  · rw [hdisk]
    exact List.mem_append_right _ (List.mem_singleton.2 rfl)
  · rw [hdisk]
    simp
  · rw [hmk]
    simp

/-- The staged kernel boot state for the C9 witness. -/
def c9State : BootState20Kernel :=
  { kmut := { currentKernelStatus := "", commitKernelStatus := "try"
              currentKernel := ⟨"pc-kernel", 1⟩ }
    nextKernelSnap := ⟨"pc-kernel", 2⟩
    modeenv := { Base := "core20_1.snap", TryBase := "", BaseStatus := ""
                 CurrentKernels := ["pc-kernel_1.snap"] } }

/-- The combined plan for the C9 witness. -/
def c9Plan : BootState20MarkSuccessful :=
  { modeenv := { Base := "core20_1.snap", TryBase := "", BaseStatus := ""
                 CurrentKernels := ["pc-kernel_1.snap", "pc-kernel_2.snap"] }
    kmut := { currentKernelStatus := "trying", commitKernelStatus := "trying"
              currentKernel := ⟨"pc-kernel", 1⟩ }
    bootedBaseSnap := none
    bootedKernelSnap := some ⟨"pc-kernel", 2⟩ }

/-- The world for the C9 witness. -/
def c9World : World :=
  { bl := { kernelStatusVar := "", enabledKernel := ⟨"pc-kernel", 1⟩
            tryKernelRef := none }
    disk := c9State.modeenv }

/-- Witness for C9 at concrete inputs. -/
theorem currentKernels_never_empty_witness :
    c9State.nextKernelSnap.Filename ≠ c9State.kmut.currentKernel.Filename ∧
    c9State.kmut.currentKernel.Filename ∈ c9State.modeenv.CurrentKernels ∧
    c9Plan.bootedKernelSnap = some ⟨"pc-kernel", 2⟩ ∧
    ((bootState20Kernel.commit c9State noFaults c9World).2.1.disk.CurrentKernels =
        c9State.modeenv.CurrentKernels ++ [c9State.nextKernelSnap.Filename] ∧
      c9State.kmut.currentKernel.Filename ∈
        (bootState20Kernel.commit c9State noFaults c9World).2.1.disk.CurrentKernels ∧
      c9State.nextKernelSnap.Filename ∈
        (bootState20Kernel.commit c9State noFaults c9World).2.1.disk.CurrentKernels ∧
      (bootState20Kernel.commit c9State noFaults c9World).2.1.disk.CurrentKernels ≠
        []) ∧
    ((bootState20MarkSuccessful.commit c9Plan noFaults
          c9World).2.1.disk.CurrentKernels =
        [(⟨"pc-kernel", 2⟩ : PlaceInfo).Filename] ∧
      (bootState20MarkSuccessful.commit c9Plan noFaults
          c9World).2.1.disk.CurrentKernels ≠ []) :=
  ⟨by decide, by decide, rfl,
    (currentKernels_never_empty c9State c9World c9Plan c9World ⟨"pc-kernel", 2⟩
      (by decide) (by decide) rfl).1,
    (currentKernels_never_empty c9State c9World c9Plan c9World ⟨"pc-kernel", 2⟩
      (by decide) (by decide) rfl).2⟩

/-- When the base status is already default, the try-base is empty, and
any marked base snap is already the current base, the base-snap updates of
the combined commit change nothing. -/
theorem bsmarkBaseUpdate_noop (m : Modeenv) (c : Bool) (b : Option PlaceInfo)
    (hbs : m.BaseStatus = DefaultStatus) (htb : m.TryBase = "")
    (hbase : ∀ p, b = some p → m.Base = p.Filename) :
    bsmarkBaseUpdate m c b = (m, c) := by
  unfold bsmarkBaseUpdate
  rcases hb : b with _ | p
  · simp [hbs]
  · simp [hbs, htb, hbase p hb]

/-- The combined plan for the C5 counterexample: nothing is pending
anywhere (kernel status default, base status default), the booted kernel
is the current kernel, and CurrentKernels already holds exactly it. -/
def c5Plan : BootState20MarkSuccessful :=
  { modeenv := { Base := "core20_1.snap", TryBase := "", BaseStatus := ""
                 CurrentKernels := ["pc-kernel_1.snap"] }
    kmut := { currentKernelStatus := "", commitKernelStatus := ""
              currentKernel := ⟨"pc-kernel", 1⟩ }
    bootedBaseSnap := none
    bootedKernelSnap := some ⟨"pc-kernel", 1⟩ }

/-- The world for the C5 counterexample and witness. -/
def c5World : World :=
  { bl := { kernelStatusVar := "", enabledKernel := ⟨"pc-kernel", 1⟩
            tryKernelRef := none }
    disk := c5Plan.modeenv }

/-- Counterexample to C5 as stated: with every status Default and a kernel
snap recorded in the plan, the commit succeeds but DOES invoke the Mode
Environment write path (the trace contains a `modeenvWrite`), because the
kernel branch unconditionally marks the record changed. -/
theorem marksuccessful_default_commit_cex :
    c5Plan.kmut.commitKernelStatus = DefaultStatus ∧
    c5Plan.modeenv.BaseStatus = DefaultStatus ∧
    bootState20MarkSuccessful.commit c5Plan noFaults c5World =
      ([Effect.disableTryKernel, Effect.modeenvWrite c5Plan.modeenv],
       { bl := { kernelStatusVar := "", enabledKernel := ⟨"pc-kernel", 1⟩
                 tryKernelRef := none }
         disk := c5Plan.modeenv }, none) ∧
    Effect.modeenvWrite c5Plan.modeenv ∈
      (bootState20MarkSuccessful.commit c5Plan noFaults c5World).1 := by
  refine ⟨rfl, rfl, by decide, by decide⟩

/-- Claim C5 (amended): committing a markSuccessful plan when the status
is Default returns success and issues no boot-variable write; it performs
no Mode Environment write when no kernel snap is recorded in the plan, but
when a kernel snap is recorded the commit always issues one Mode
Environment write that resets CurrentKernels, even when nothing changed. -/
theorem marksuccessful_default_commit (s : BootState20MarkSuccessful) (w : World)
    (hks : s.kmut.commitKernelStatus = DefaultStatus)
    (hbs : s.modeenv.BaseStatus = DefaultStatus)
    (htb : s.modeenv.TryBase = "")
    (hbase : ∀ b, s.bootedBaseSnap = some b → s.modeenv.Base = b.Filename)
    (hcur : ∀ sn, s.bootedKernelSnap = some sn →
      s.kmut.currentKernel.Filename = sn.Filename) :
    (bootState20MarkSuccessful.commit s noFaults w).2.2 = none ∧
    (∀ v, Effect.setBootVars v ∉ (bootState20MarkSuccessful.commit s noFaults w).1) ∧
    (s.bootedKernelSnap = none →
      (bootState20MarkSuccessful.commit s noFaults w).1 = []) ∧
    (∀ sn, s.bootedKernelSnap = some sn →
      (bootState20MarkSuccessful.commit s noFaults w).1 =
        [Effect.disableTryKernel,
         Effect.modeenvWrite { s.modeenv with CurrentKernels := [sn.Filename] }]) := by
  rcases hsk : s.bootedKernelSnap with _ | sn
  · have hbu := bsmarkBaseUpdate_noop s.modeenv false s.bootedBaseSnap hbs htb hbase
    have hcommit : bootState20MarkSuccessful.commit s noFaults w = ([], w, none) := by
      unfold bootState20MarkSuccessful.commit
      rw [hsk]
      simp [hbu, hbs]
    rw [hcommit]
    simp
  · have hfn := hcur sn hsk
    have hbu := bsmarkBaseUpdate_noop
      { s.modeenv with CurrentKernels := [sn.Filename] } true s.bootedBaseSnap
      (by simpa using hbs) (by simpa using htb)
      (by intro p hp; simpa using hbase p hp)
    have hcommit : bootState20MarkSuccessful.commit s noFaults w =
        ([Effect.disableTryKernel,
          Effect.modeenvWrite { s.modeenv with CurrentKernels := [sn.Filename] }],
         { bl := { kernelStatusVar := w.bl.kernelStatusVar
                   enabledKernel := w.bl.enabledKernel, tryKernelRef := none }
           disk := { s.modeenv with CurrentKernels := [sn.Filename] } },
         none) := by
      unfold bootState20MarkSuccessful.commit KernelMutator.markSuccessful
        setBootVarsOp enableKernelOp disableTryKernelOp modeenvWriteOp
      rw [hsk]
      simp [noFaults, hks, hfn, hbu]
    rw [hcommit]
    refine ⟨rfl, by simp, by simp [hsk], ?_⟩
    intro sn2 hsn2
    cases hsn2
    rfl

/-- The base-only plan for the C5 witness: only a base snap is recorded,
everything is already in its default state. -/
def c5BasePlan : BootState20MarkSuccessful :=
  { modeenv := { Base := "core20_1.snap", TryBase := "", BaseStatus := ""
                 CurrentKernels := ["pc-kernel_1.snap"] }
    kmut := { currentKernelStatus := "", commitKernelStatus := ""
              currentKernel := ⟨"pc-kernel", 1⟩ }
    bootedBaseSnap := some ⟨"core20", 1⟩
    bootedKernelSnap := none }

/-- Witness for the amended C5 at concrete inputs: a base-only plan in the
default state commits successfully with no effects at all. -/
theorem marksuccessful_default_commit_witness :
    (bootState20MarkSuccessful.commit c5BasePlan noFaults c5World).2.2 = none ∧
    (bootState20MarkSuccessful.commit c5BasePlan noFaults c5World).1 = [] :=
  ⟨(marksuccessful_default_commit c5BasePlan c5World rfl rfl rfl
      (by intro b hb; cases hb; rfl)
      (by intro sn hsn; cases hsn)).1,
    (marksuccessful_default_commit c5BasePlan c5World rfl rfl rfl
      (by intro b hb; cases hb; rfl)
      (by intro sn hsn; cases hsn)).2.2.1 rfl⟩
